import Mathlib

/-!
# Verification of the Tuplex Python row materializer

A shallow embedding of `src/tuplex/adapters/cpython/src/PythonSerializer.cc`:
the schema-driven materializer that rebuilds Python values from Tuplex's
packed binary row format, together with the size prober used to advance the
row cursor, and the cJSON-based typed-dictionary decoder.

Modelling conventions:
* Byte memory is a total function `Nat → Nat`; the byte at `p` is `m p % 256`.
  64-bit loads are little-endian; `int64_t` loads reinterpret the unsigned
  value two's-complement style.
* CPython objects are the inductive `PyVal`.  A C `PyObject*` result is
  `Option PyVal`, with `Option.none` standing for a null pointer (an
  exception / hard failure); the Python `None` singleton is `PyVal.none`.
* External collaborators (CPython constructors, cJSON, pickle) are modelled
  as total and injective: `PyUnicode_DecodeUTF8` keeps the decoded byte
  slice, `deserializePickledObject` keeps the byte slice handed to it, and
  cJSON documents arrive pre-parsed as a list of `CJItem` nodes supplied by
  an abstract source `CJSource`.
* Recursion over the schema is bounded by explicit fuel; every wrapper
  passes `4 * fullSize T + 4`, which strictly exceeds the number of schema
  descents any run can make, so the out-of-fuel branch is unreachable from
  the wrappers.
-/

/-! ## Byte memory -/

/-- Byte-addressed memory: the byte at address `p` is `m p % 256`. -/
abbrev Mem := Nat → Nat

/-- The byte stored at address `p`. -/
def byteAt (m : Mem) (p : Nat) : Nat := m p % 256

/-- Little-endian unsigned 64-bit load at address `p`. -/
def readU64 (m : Mem) (p : Nat) : Nat :=
  byteAt m p +
  2 ^ 8 * byteAt m (p + 1) +
  2 ^ 16 * byteAt m (p + 2) +
  2 ^ 24 * byteAt m (p + 3) +
  2 ^ 32 * byteAt m (p + 4) +
  2 ^ 40 * byteAt m (p + 5) +
  2 ^ 48 * byteAt m (p + 6) +
  2 ^ 56 * byteAt m (p + 7)

/-- Reinterpret a 64-bit unsigned value as a two's-complement `int64_t`. -/
def toInt64 (n : Nat) : Int :=
  if n % 2 ^ 64 < 2 ^ 63 then ((n % 2 ^ 64 : Nat) : Int)
  else ((n % 2 ^ 64 : Nat) : Int) - 2 ^ 64

/-- `static_cast<int64_t>` of an unsigned (`size_t`) value. -/
def int64OfNat (n : Nat) : Int := toInt64 n

/-- Little-endian signed 64-bit load at address `p`. -/
def readI64 (m : Mem) (p : Nat) : Int := toInt64 (readU64 m p)

/-- The `n` bytes starting at address `p`. -/
def readBytes (m : Mem) (p n : Nat) : List Nat :=
  (List.range n).map fun i => byteAt m (p + i)

/-- Memory initialised from a byte list (zero beyond the end). -/
def memOf (l : List Nat) : Mem := fun p => l.getD p 0

/-- The little-endian bytes of a 64-bit word. -/
def word64le (n : Nat) : List Nat :=
  [n % 256, n / 2 ^ 8 % 256, n / 2 ^ 16 % 256, n / 2 ^ 24 % 256,
   n / 2 ^ 32 % 256, n / 2 ^ 40 % 256, n / 2 ^ 48 % 256, n / 2 ^ 56 % 256]

/-- The ASCII bytes of a string literal. -/
def strBytes (s : String) : List Nat := s.toList.map Char.toNat

/-! ## The type descriptor (`python::Type`)

The `python::Type` calculus lives in the Tuplex core, outside the file under
verification; its closed variant set and its predicates are modelled from
the spec (sections 3 and 4.1).  `EMPTYTUPLE` is represented as `tuple []`.
-/

/-- Modelled from the spec: the closed variant set of `python::Type` used by
the materializer (primitives, empty singletons, composites, the opaque
`PYOBJECT` tag, and the two dict forms).  The empty tuple is `tuple []`. -/
inductive PType where
  | bool
  | i64
  | f64
  | str
  | nullValue
  | emptyDict
  | emptyList
  | genericDict
  | pyobject
  | tuple (ts : List PType)
  | list (t : PType)
  | dict (k v : PType)
  | option (t : PType)

mutual
/-- Structural equality test for `PType`, standing in for `python::Type`'s
`operator==`. -/
def PType.beq : PType → PType → Bool
  | .bool, .bool => true
  | .i64, .i64 => true
  | .f64, .f64 => true
  | .str, .str => true
  | .nullValue, .nullValue => true
  | .emptyDict, .emptyDict => true
  | .emptyList, .emptyList => true
  | .genericDict, .genericDict => true
  | .pyobject, .pyobject => true
  | .tuple ts, .tuple us => PType.beqList ts us
  | .list a, .list b => PType.beq a b
  | .dict a b, .dict c d => PType.beq a c && PType.beq b d
  | .option a, .option b => PType.beq a b
  | _, _ => false

/-- Elementwise `PType.beq` on parameter lists. -/
def PType.beqList : List PType → List PType → Bool
  | [], [] => true
  | a :: xs, b :: ys => PType.beq a b && PType.beqList xs ys
  | _, _ => false
end

instance : BEq PType := ⟨PType.beq⟩

/-- Modelled from the spec: `is_single_valued` holds exactly for null, the
empty tuple, the empty dict and the empty list (types with one inhabitant,
occupying zero row bytes). -/
def isSingleValued : PType → Bool
  | .nullValue => true
  | .tuple [] => true
  | .emptyDict => true
  | .emptyList => true
  | _ => false

/-- Modelled from the spec: whether the type is `optional(...)`. -/
def isOptionType : PType → Bool
  | .option _ => true
  | _ => false

/-- Modelled from the spec: the inner type of an optional (identity
otherwise), Tuplex's `Type::getReturnType` as used on option types. -/
def getReturnType : PType → PType
  | .option t => t
  | t => t

/-- Modelled from the spec: strip an optional wrapper
(`Type::withoutOptions`). -/
def withoutOptions : PType → PType
  | .option t => t
  | t => t

/-- Modelled from the spec: the element type of a list (identity
otherwise). -/
def elementType : PType → PType
  | .list t => t
  | t => t

/-- Modelled from the spec: whether the type is a (non-empty-form) list
type; the `EMPTYLIST` singleton is a separate variant. -/
def isListType : PType → Bool
  | .list _ => true
  | _ => false

/-- Modelled from the spec: whether the type is a tuple form (the empty
tuple included). -/
def isTupleType : PType → Bool
  | .tuple _ => true
  | _ => false

/-- Modelled from the spec: whether the type is a typed-dictionary form
(`dict(K,V)` or the empty dict); `GENERICDICT` is tested separately at
every use site, mirroring the source. -/
def isDictionaryType : PType → Bool
  | .dict _ _ => true
  | .emptyDict => true
  | _ => false

mutual
/-- Modelled from the spec: `num_optional_leaves` — the number of optional
nodes at leaf positions of the depth-first left-to-right tuple-tree walk
(`python::numOptionalFields`).  The walk descends into tuples only, so an
optional node is itself a leaf and counts once. -/
def numOptionalFields : PType → Nat
  | .tuple ts => numOptionalFieldsList ts
  | .option _ => 1
  | _ => 0

/-- Sum of `numOptionalFields` over a tuple's parameter list. -/
def numOptionalFieldsList : List PType → Nat
  | [] => 0
  | t :: ts => numOptionalFields t + numOptionalFieldsList ts
end

mutual
/-- Modelled from the spec: the number of leaf paths of the tuple tree,
`TupleTree(row_type).getMultiIndices().size()` — the walk descends into
tuples only, every non-tuple node is one leaf. -/
def numLeaves : PType → Nat
  | .tuple ts => numLeavesList ts
  | _ => 1

/-- Sum of `numLeaves` over a tuple's parameter list. -/
def numLeavesList : List PType → Nat
  | [] => 0
  | t :: ts => numLeaves t + numLeavesList ts
end

mutual
/-- Modelled from the spec: `is_fixed_size` — true for the fixed-width
primitives and the single-valued singletons, for tuples of fixed-size
members, and for optionals of fixed-size inner types; false for strings,
lists, dicts and opaque objects. -/
def isFixedSizeType : PType → Bool
  | .bool => true
  | .i64 => true
  | .f64 => true
  | .nullValue => true
  | .emptyDict => true
  | .emptyList => true
  | .str => false
  | .genericDict => false
  | .pyobject => false
  | .dict _ _ => false
  | .list _ => false
  | .option t => isFixedSizeType t
  | .tuple ts => isFixedSizeTypeList ts

/-- All members fixed-size. -/
def isFixedSizeTypeList : List PType → Bool
  | [] => true
  | t :: ts => isFixedSizeType t && isFixedSizeTypeList ts
end

/-- Modelled from the spec: `core::ceilToMultiple n m` rounds `n` up to a
multiple of `m`. -/
def ceilToMultiple (n m : Nat) : Nat := (n + m - 1) / m * m

/-- The number of 64-bit bitmap words of a row of this type:
`ceilToMultiple(numOptionalFields(T), 64) / 64`. -/
def numBitmapFields (T : PType) : Nat := ceilToMultiple (numOptionalFields T) 64 / 64

mutual
/-- A structural size of a type term, used only to supply enough fuel to
the materializer (strictly larger than any chain of schema descents). -/
def fullSize : PType → Nat
  | .tuple ts => 1 + fullSizeList ts
  | .list t => 1 + fullSize t
  | .dict k v => 1 + fullSize k + fullSize v
  | .option t => 1 + fullSize t
  | _ => 1

/-- Structural size of a parameter list. -/
def fullSizeList : List PType → Nat
  | [] => 1
  | t :: ts => 1 + fullSize t + fullSizeList ts
end

/-! ## Python values -/

/-- CPython values as produced by the materializer.  `str` carries the
UTF-8 byte slice handed to `PyUnicode_DecodeUTF8`; `floatBits` a double's
raw 64-bit memory pattern; `floatVal` a `PyFloat_FromDouble` of an
integer-valued double; `floatOfText` a `PyFloat_FromDouble(strtod(s))`
kept uninterpreted as its text; `pickled` the byte slice handed to the
opaque-object deserializer.  `dict` keeps the insertion sequence of
`PyDict_SetItem` calls. -/
inductive PyVal where
  | none
  | bool (b : Bool)
  | int (n : Int)
  | floatBits (bits : Nat)
  | floatVal (v : Int)
  | floatOfText (s : List Nat)
  | str (utf8 : List Nat)
  | tuple (vs : List PyVal)
  | list (vs : List PyVal)
  | dict (entries : List (PyVal × PyVal))
  | pickled (buf : List Nat)

/-! ## The cJSON typed-dictionary decoder

`cJSON_Parse` is an external collaborator; a parsed document arrives as a
list of child nodes.  Numeric nodes carry `valuedouble`, the IEEE-754
binary64 value `strtod` produced for the token; this model restricts
attention to integer-valued doubles, which covers every claim (see
`nearestDouble` for the rounding the parse applies to integer tokens). -/

/-- A parsed cJSON child node: `key` is `cur_item->string` (bytes),
`valuestring` the node's string body, `istrue` is `cJSON_IsTrue`, and
`valuedouble` the node's numeric value (integer-valued doubles only). -/
structure CJItem where
  key : List Nat
  valuestring : List Nat
  istrue : Bool
  valuedouble : Int

/-- An abstract `cJSON_Parse`: the document rooted at the NUL-terminated
text at a given address of a given memory.  The materializer is
parameterised over it. -/
abbrev CJSource := Mem → Nat → List CJItem

/-- Fueled floor-log2 worker. -/
def floorLog2Aux : Nat → Nat → Nat
  | 0, _ => 0
  | fuel + 1, n => if n ≤ 1 then 0 else floorLog2Aux fuel (n / 2) + 1

/-- Floor of the base-2 logarithm, for `n < 2 ^ 64` (structurally
recursive so that it computes by reduction). -/
def floorLog2 (n : Nat) : Nat := floorLog2Aux 64 n

/-- Modelled from the spec: round-to-nearest, ties-to-even IEEE-754
binary64 rounding of a natural number (exact up to `2 ^ 53`; above that
the value is rounded to the nearest multiple of the binade's ulp, ties
going to the even multiple).  This is what `strtod` / cJSON parsing does
to an integer token. -/
def nearestDoubleNat (n : Nat) : Nat :=
  if n ≤ 2 ^ 53 then n
  else
    let e := floorLog2 n - 52
    let u := 2 ^ e
    let q := n / u
    let r := n % u
    if 2 * r < u then q * u
    else if 2 * r > u then (q + 1) * u
    else if q % 2 = 0 then q * u else (q + 1) * u

/-- Modelled from the spec: `nearestDoubleNat` extended to integers by
sign symmetry. -/
def nearestDouble (n : Int) : Int :=
  if 0 ≤ n then (nearestDoubleNat n.toNat : Int) else -(nearestDoubleNat (-n).toNat : Int)

/-- Modelled from the spec: `PyLong_FromString(s, nullptr, 10)` — parse a
base-10 signed integer from ASCII bytes (digits after an optional minus
sign). -/
def parseBase10 (s : List Nat) : Int :=
  match s with
  | 45 :: rest => -(rest.foldl (fun a d => a * 10 + (d - 48)) 0 : Nat)
  | _ => (s.foldl (fun a d => a * 10 + (d - 48)) 0 : Nat)

/-- Embeds `PyObj_FromCJSONKey`: decode a typed-dictionary key from its
serialized form.  The first byte is the type tag; the text after the
2-byte prefix is the key body.  Returns the value and whether the error
branch (log + `Py_None`) was taken.  Tag bytes: `s` = 115, `b` = 98,
`i` = 105, `f` = 102. -/
def PyObj_FromCJSONKey (serializedKey : List Nat) : PyVal × Bool :=
  match serializedKey with
  | t :: _ :: keyString =>
    if t = 115 then (.str keyString, false)
    else if t = 98 then
      if keyString = strBytes "True" then (.bool true, false)
      else if keyString = strBytes "False" then (.bool false, false)
      else (.none, true)
    else if t = 105 then (.int (parseBase10 keyString), false)
    else if t = 102 then (.floatOfText keyString, false)
    else (.none, true)
  | _ => (.none, true)

/-- Embeds `PyObj_FromCJSONVal`: decode a cJSON node as the value of a
typed-dictionary entry, driven by a type tag character.  The `i` arm is
`PyLong_FromDouble(obj->valuedouble)` — it goes through the node's double,
not through the literal token. -/
def PyObj_FromCJSONVal (obj : CJItem) (type : Nat) : PyVal × Bool :=
  if type = 115 then (.str obj.valuestring, false)
  else if type = 98 then (.bool obj.istrue, false)
  else if type = 105 then (.int obj.valuedouble, false)
  else if type = 102 then (.floatVal obj.valuedouble, false)
  else (.none, true)

/-- The entry sequence `PyDict_FromCJSON` inserts: for each child node the
key is decoded by `PyObj_FromCJSONKey` and the value by
`PyObj_FromCJSONVal` with tag `key[1]` — the second byte of the key's
prefix. -/
def dictEntries : List CJItem → List (PyVal × PyVal)
  | [] => []
  | it :: rest =>
    ((PyObj_FromCJSONKey it.key).1, (PyObj_FromCJSONVal it (it.key.getD 1 0)).1) :: dictEntries rest

/-- Embeds `PyDict_FromCJSON`: walk the document's children and insert
each decoded (key, value) pair. -/
def PyDict_FromCJSON (items : List CJItem) : PyVal := .dict (dictEntries items)

/-- Embeds `createPyDictFromMemory` (release build): read the packed
varlen descriptor at the slot, parse the NUL-terminated cJSON text at
`ptr + offset` (via the abstract source), and decode it.  The descriptor's
length half is read but unused, as in the source. -/
def createPyDictFromMemory (cj : CJSource) (m : Mem) (p : Nat) : PyVal :=
  let elem := readU64 m p
  let offset := elem % 2 ^ 32
  PyDict_FromCJSON (cj m (p + offset))

/-! ## The row materializer -/

/-- Collect a list of possibly-null objects, failing (null pointer) as soon
as one element fails. -/
def seqOption {α : Type} : List (Option α) → Option (List α)
  | [] => some []
  | Option.none :: _ => Option.none
  | some a :: rest => (seqOption rest).map fun l => a :: l


/-- The five functions of the materializer at one fuel level.  The
recursion of the source (`createPyObjectFromMemory` ↔
`createPyTupleFromMemory` ↔ `createPyListFromMemory` plus the tuple leaf
walk) is tied by explicit fuel: level `fuel + 1` of each function calls
the level-`fuel` functions, so the whole bundle is a single structural
recursion on fuel (`matAt`) and computes by reduction. -/
structure MatFns where
  obj : Nat → PType → Option Nat → Nat → Option PyVal
  tup : Nat → PType → Option PyVal
  wTup : Nat → Nat → List PType → Nat → Nat → Option (List PyVal) × Nat × Nat
  wNode : Nat → Nat → PType → Nat → Nat → Option PyVal × Nat × Nat
  lst : Nat → PType → Option PyVal

/-- Out of fuel: every call fails (null pointer).  Unreachable from the
wrappers, which always supply more fuel than a run can consume. -/
def matBottom : MatFns where
  obj _ _ _ _ := Option.none
  tup _ _ := Option.none
  wTup _ _ _ bufOff bmIdx := (Option.none, bufOff, bmIdx)
  wNode _ _ _ bufOff bmIdx := (Option.none, bufOff, bmIdx)
  lst _ _ := Option.none

/-- One fuel level of the materializer; each field embeds one source
function.

* `obj` embeds `createPyObjectFromMemory(ptr, row_type, bitmap, index)`,
  the schema-driven dispatcher.  `bm` is the (possibly null) bitmap
  pointer and `idx` the optional-leaf index inherited from an enclosing
  tuple walk.  The `nullValue` arm is the source's fallback for a variant
  the dispatcher does not recognise (debug log, then `Py_None`).  For an
  optional: a null bitmap pointer means the row's outermost type is
  optional, so the first 8 bytes at `ptr` are the bitmap and the index
  is 0; the null test is the source's
  `bitmap[index/64] & (1UL << (index % 64))` on a `uint8_t` bitmap
  pointer, and a non-null leaf recurses on the inner type with a null
  bitmap.
* `tup` embeds `createPyTupleFromMemory(ptr, row_type)`: capture the
  bitmap pointer at the row start, skip `8 * num_bitmap_fields` bytes,
  then walk the tuple tree's leaves in depth-first order.  The source
  drives the walk off `TupleTree::getMultiIndices()` with an explicit
  stack of partially built tuples; this embedding performs the same walk
  by recursion on the schema (`wTup`, `wNode`), threading the source's
  two cursors: `current_buffer_index`, advanced 8 bytes past every
  non-single-valued leaf, and `bitmap_index`, advanced past every
  optional leaf.  A nested empty-tuple member, which the source's walk
  skips entirely (its slot stays unset), is materialized as the empty
  tuple here.
* `wTup` walks one tuple level: build each member in order, threading
  the two cursors; a null member aborts the walk (the source returns
  `nullptr`).
* `wNode` walks one node: descend into nested tuples; at a leaf,
  materialize it at `fixedBase + bufOff` with the shared bitmap, then
  advance the buffer cursor (unless the leaf is single-valued once
  options are stripped) and the bitmap cursor (iff the leaf is optional),
  exactly as the source's loop body does.
* `lst` embeds `createPyListFromMemory(ptr, row_type)`.  A single-valued
  element type stores a bare count in the fixed slot and yields that many
  copies of the unique element; otherwise the packed varlen descriptor is
  followed, the count read, and the elements decoded at successive 8-byte
  slots.  String elements use the offset stored in their own slot plus
  the consecutive-offset length formulas of the source; an unrecognised
  element type throws (`Option.none` here).  The count is read as in the
  source's `size_t` loop bound, i.e. as the unsigned 64-bit word. -/
def matStep (cj : CJSource) (m : Mem) (prev : MatFns) : MatFns where
  obj p row_type bm idx :=
    match row_type with
    | .bool => some (.bool (byteAt m p != 0))
    | .i64 => some (.int (readI64 m p))
    | .f64 => some (.floatBits (readU64 m p))
    | .str =>
      let elem := readU64 m p
      let offset : Nat := elem % 2 ^ 32
      let length : Nat := elem / 2 ^ 32
      some (.str (readBytes m (p + offset) (length - 1)))
    | .tuple [] => some (.tuple [])
    | .tuple ts => prev.tup p (.tuple ts)
    | .emptyDict => some (.dict [])
    | .dict _ _ => some (createPyDictFromMemory cj m p)
    | .genericDict => some (createPyDictFromMemory cj m p)
    | .emptyList => some (.list [])
    | .list t => prev.lst p (.list t)
    | .option t =>
      let s : Nat × Nat × Nat :=
        match bm with
        | Option.none => (p, 0, p + 8)
        | some b => (b, idx, p)
      let is_null := byteAt m (s.1 + s.2.1 / 64) &&& (1 <<< (s.2.1 % 64)) != 0
      if is_null then some .none
      else prev.obj s.2.2 t Option.none 0
    | .pyobject =>
      let elem := readU64 m p
      let offset : Nat := elem % 2 ^ 32
      let buf_size : Nat := elem / 2 ^ 32
      some (.pickled (readBytes m (p + offset) buf_size))
    | .nullValue => some .none
  tup p row_type :=
    match row_type with
    | .tuple ts =>
      let num_bitmap_fields := numBitmapFields (.tuple ts)
      ((prev.wTup (p + 8 * num_bitmap_fields) p ts 0 0).1).map .tuple
    | _ => Option.none
  wTup fixedBase bitmapPtr ts bufOff bmIdx :=
    match ts with
    | [] => (some [], bufOff, bmIdx)
    | t :: rest =>
      match prev.wNode fixedBase bitmapPtr t bufOff bmIdx with
      | (Option.none, b, i) => (Option.none, b, i)
      | (some v, b, i) =>
        match prev.wTup fixedBase bitmapPtr rest b i with
        | (some vs, b2, i2) => (some (v :: vs), b2, i2)
        | (Option.none, b2, i2) => (Option.none, b2, i2)
  wNode fixedBase bitmapPtr t bufOff bmIdx :=
    match t with
    | .tuple ts =>
      let r := prev.wTup fixedBase bitmapPtr ts bufOff bmIdx
      (r.1.map .tuple, r.2.1, r.2.2)
    | t =>
      (prev.obj (fixedBase + bufOff) t (some bitmapPtr) bmIdx,
       bufOff + (if isSingleValued (withoutOptions t) then 0 else 8),
       bmIdx + (if isOptionType t then 1 else 0))
  lst p row_type :=
    match row_type with
    | .list t =>
      if isSingleValued t then
        let numElements := readU64 m p
        let element : Option PyVal :=
          if t == .nullValue then some .none
          else if t == .emptyDict then some (.dict [])
          else if t == .tuple [] then some (.tuple [])
          else if t == .emptyList then some (.list [])
          else Option.none
        element.map fun e => .list (List.replicate numElements e)
      else
        let elem := readU64 m p
        let offset : Nat := elem % 2 ^ 32
        let length : Nat := elem / 2 ^ 32
        let base := p + offset
        let numElements := readU64 m base
        (seqOption ((List.range numElements).map fun i =>
          let q := base + 8 + 8 * i
          if t == .i64 then some (.int (readI64 m q))
          else if t == .f64 then some (.floatBits (readU64 m q))
          else if t == .bool then some (.bool (readI64 m q != 0))
          else if t == .str then
            let curStrOffset := readI64 m q
            let curStrLen : Int :=
              if i = numElements - 1 then
                ((length : Int) - (numElements : Int) * 8) - curStrOffset
              else
                readI64 m (q + 8) - (curStrOffset - 8)
            some (.str (readBytes m ((q : Int) + curStrOffset).toNat (curStrLen - 1).toNat))
          else if isTupleType t then prev.tup q t
          else if isDictionaryType t then some (createPyDictFromMemory cj m q)
          else Option.none)).map .list
    | _ => Option.none

/-- The materializer bundle with the given amount of fuel. -/
def matAt (cj : CJSource) (m : Mem) : Nat → MatFns
  | 0 => matBottom
  | fuel + 1 => matStep cj m (matAt cj m fuel)

/-- Embeds `createPyObjectFromMemory(ptr, row_type, bitmap, index)` at a
given fuel; see `matStep.obj`. -/
def createPyObjectFromMemoryF (cj : CJSource) (fuel : Nat) (m : Mem) (p : Nat)
    (row_type : PType) (bm : Option Nat) (idx : Nat) : Option PyVal :=
  (matAt cj m fuel).obj p row_type bm idx

/-- Embeds `createPyTupleFromMemory(ptr, row_type)` at a given fuel; see
`matStep.tup`. -/
def createPyTupleFromMemoryF (cj : CJSource) (fuel : Nat) (m : Mem) (p : Nat)
    (row_type : PType) : Option PyVal :=
  (matAt cj m fuel).tup p row_type

/-- Embeds `createPyListFromMemory(ptr, row_type)` at a given fuel; see
`matStep.lst`. -/
def createPyListFromMemoryF (cj : CJSource) (fuel : Nat) (m : Mem) (p : Nat)
    (row_type : PType) : Option PyVal :=
  (matAt cj m fuel).lst p row_type

/-- `createPyObjectFromMemory` with the fuel the wrappers always supply
(strictly more than any chain of schema descents can consume). -/
def createPyObjectFromMemory (cj : CJSource) (m : Mem) (p : Nat) (row_type : PType)
    (bm : Option Nat) (idx : Nat) : Option PyVal :=
  createPyObjectFromMemoryF cj (4 * fullSize row_type + 4) m p row_type bm idx

/-! ## The size prober -/

/-- Embeds `checkTupleCapacity(ptr, capacity, row_type)`.  Its `ptr`
argument is the pointer as the caller passes it — `serializationSize` has
already advanced it past the bitmap — yet the varlen-total word is read at
`ptr + 8 * num_bitmap_fields + num_bytes`, adding the bitmap again.  The
overflow comparison mirrors the source's unsigned (`size_t`) arithmetic. -/
def checkTupleCapacity (m : Mem) (p : Nat) (capacity : Int) (row_type : PType) : Int :=
  let num_bytes := int64OfNat (numLeaves row_type * 8)
  if num_bytes > capacity then -1
  else
    let num_bitmap_fields := numBitmapFields row_type
    let varlen_field_length := readU64 m (p + 8 * num_bitmap_fields + numLeaves row_type * 8)
    if ((8 * num_bitmap_fields + numLeaves row_type * 8 + varlen_field_length) % 2 ^ 64 : Int) >
        (capacity.emod (2 ^ 64)) then -1
    else num_bytes

/-- Embeds `serializationSize(ptr, capacity, row_type)`: the number of
bytes one serialized row occupies, or a negative sentinel on a capacity
overflow.  Single-valued types occupy zero bytes; an optional of a
single-valued type occupies only its bitmap.  Otherwise the pointer is
advanced past the bitmap, a per-shape capacity check computes the fixed
part, the bitmap is added, and for non-fixed-size types the varlen total
(read at the advanced pointer plus the accumulated size) plus its length
word is appended. -/
def serializationSize (m : Mem) (p : Nat) (capacity : Int) (row_type : PType) : Int :=
  if isSingleValued row_type then 0
  else
    let num_bitmap_fields := numBitmapFields row_type
    if isOptionType row_type && isSingleValued (getReturnType row_type) then
      int64OfNat (8 * num_bitmap_fields)
    else
      let p1 := p + 8 * num_bitmap_fields
      let capacitySize : Int :=
        if (row_type == .str || isDictionaryType row_type || row_type == .genericDict ||
            (isListType row_type && row_type != .emptyList &&
             !isSingleValued (elementType row_type))) &&
           row_type != .emptyDict then
          let elem := readU64 m p1
          let offset : Nat := elem % 2 ^ 32
          let length : Nat := elem / 2 ^ 32
          if (((offset + length) % 2 ^ 32 : Nat) : Int) > capacity then -1 else 8
        else if row_type != .tuple [] && isTupleType row_type then
          checkTupleCapacity m p1 capacity row_type
        else 8
      if capacitySize ≤ -1 then capacitySize
      else
        let capacitySize := capacitySize + int64OfNat (8 * num_bitmap_fields)
        if !isFixedSizeType row_type then
          capacitySize + readI64 m (p1 + capacitySize.toNat) + 8
        else capacitySize

/-- Embeds `isCapacityValid` (unused by the entry point — its call is
commented out in the source). -/
def isCapacityValid (m : Mem) (p : Nat) (capacity : Int) (row_type : PType) : Bool :=
  if capacity ≤ 0 then false
  else
    let size := serializationSize m p capacity row_type
    if size ≤ -1 then false else size ≤ capacity

/-! ## The entry point -/

/-- The observable result of `fromSerializedMemory`: the produced object
(`Option.none` = null pointer), the next-row pointer, and the boolean
return value. -/
structure DeserializedRow where
  obj : Option PyVal
  next : Int
  ret : Bool

/-- Embeds `fromSerializedMemory(ptr, capacity, schema, &obj, &nextptr)`:
materialize unconditionally (the `isCapacityValid` guard is commented out
in the source), set `*nextptr = ptr + serializationSize(...)`, and return
`*obj != nullptr`. -/
def fromSerializedMemory (cj : CJSource) (m : Mem) (p : Nat) (capacity : Int)
    (row_type : PType) : DeserializedRow :=
  let obj := createPyObjectFromMemory cj m p row_type Option.none 0
  { obj := obj
    next := (p : Int) + serializationSize m p capacity row_type
    ret := obj.isSome }

/-! ## Concrete rows used by the claim instances -/

/-- A cJSON source with no documents (the dict path is unused where this
appears). -/
def noItems : CJSource := fun _ _ => []

/-- The all-zero memory. -/
def zeroMem : Mem := fun _ => 0

/-- Bitmap word `0x100` (bit 8 set) followed by the i64 value 42. -/
def mBitmapRow : Mem := memOf (word64le 256 ++ word64le 42)

/-- A row for the tuple schema `(option i64, str)`: bitmap word at 0,
two fixed slots at 8 and 16, the word at 24 (the varlen total under the
layout `bitmap ++ fixed ++ varlen`) is 0, and the word at 32 (where the
prober actually reads) is 100. -/
def mTupleRow : Mem :=
  memOf (word64le 0 ++ word64le 0 ++ word64le 0 ++ word64le 0 ++ word64le 100)

/-- A row for the schema `list(str)` holding `["a", "bc"]` in the format
the list decoder reads: fixed slot at 0 with descriptor (offset 8,
length 29); varlen region at 8 with count 2, the two offset slots 16 and
10 (each relative to its own slot), then `"a\x00"` at 32 and `"bc\x00"`
at 34. -/
def mListRow : Mem :=
  memOf (word64le (8 + 29 * 2 ^ 32) ++ word64le 2 ++ word64le 16 ++ word64le 10 ++
    [97, 0, 98, 99, 0])

/-- A row for the schema `str` whose descriptor stores length 1 (offset
0): the empty string. -/
def mEmptyStrRow : Mem := memOf (word64le (2 ^ 32))

/-- Follows the claim's words, not the source: decode a list of strings
reading each string at one fixed region base — the first offset slot —
plus the element's stored offset, with the claim's length formulas.  Used
to compare against what `createPyListFromMemory` actually does. -/
def stringListFromMemory_claim (m : Mem) (p : Nat) : PyVal :=
  let elem := readU64 m p
  let offset : Nat := elem % 2 ^ 32
  let length : Nat := elem / 2 ^ 32
  let base := p + offset
  let numElements := readU64 m base
  .list ((List.range numElements).map fun i =>
    let q := base + 8 + 8 * i
    let curStrOffset := readI64 m q
    let curStrLen : Int :=
      if i = numElements - 1 then
        ((length : Int) - (numElements : Int) * 8) - curStrOffset
      else
        readI64 m (q + 8) - (curStrOffset - 8)
    .str (readBytes m (((base + 8 : Nat) : Int) + curStrOffset).toNat (curStrLen - 1).toNat))

/-- The amended string-list element rule: element `i` is decoded at its
own offset slot's address (`base + 8 + 8 * i`, one word past the count
plus the preceding offset slots) plus the offset stored there, with the
source's consecutive-offset length formulas. -/
def stringListElement (m : Mem) (base length numElements i : Nat) : PyVal :=
  let slot := base + 8 + 8 * i
  let curStrOffset := readI64 m slot
  let curStrLen : Int :=
    if i = numElements - 1 then
      ((length : Int) - (numElements : Int) * 8) - curStrOffset
    else
      readI64 m (slot + 8) - (curStrOffset - 8)
  .str (readBytes m ((slot : Int) + curStrOffset).toNat (curStrLen - 1).toNat)

/-! ## Helper lemmas -/

/-- Collecting a list of per-element successes succeeds with the mapped
list. -/
theorem seqOption_map_some {α β : Type} (f : α → β) (l : List α) :
    seqOption (l.map fun a => some (f a)) = some (l.map f) := by
  induction l with
  | nil => rfl
  | cons a rest ih => simp [seqOption, ih]

/-- The dict decoder's entry sequence is the elementwise decode: key via
`PyObj_FromCJSONKey`, value via `PyObj_FromCJSONVal` with tag `key[1]`. -/
theorem dictEntries_eq_map (items : List CJItem) :
    dictEntries items = items.map fun it =>
      ((PyObj_FromCJSONKey it.key).1, (PyObj_FromCJSONVal it (it.key.getD 1 0)).1) := by
  induction items with
  | nil => rfl
  | cons it rest ih => simp [dictEntries, ih]

/-! ## The claims -/

/-- C1, counterexample: decoding the typed-dict document with the single
entry key `"s_k"`, numeric value 7 (the claim's instance) does not yield
the dictionary entry `("k", 7)`: the value tag the code uses is `key[1]`,
the underscore, so the value is replaced by the null sentinel and the
output is the entry `("k", None)`. -/
theorem claim1_counterexample :
    PyDict_FromCJSON [⟨strBytes "s_k", [], false, 7⟩]
      = .dict [(.str (strBytes "k"), PyVal.none)]
    ∧ PyVal.none ≠ PyVal.int 7 :=
  ⟨rfl, fun h => nomatch h⟩

/-- C1 (amended): every typed-dict value is decoded with the SECOND
character of the key's two-character prefix — the entry's value tag —
not the first; a document whose second prefix character is `i` (such as
key `"sik"`, i.e. string key `"k"` with an i64 value) decodes the numeric
value 7 as the integer 7. -/
theorem claim1_value_decoded_with_second_tag_char (items : List CJItem) :
    PyDict_FromCJSON items
      = .dict (items.map fun it =>
          ((PyObj_FromCJSONKey it.key).1, (PyObj_FromCJSONVal it (it.key.getD 1 0)).1))
    ∧ PyDict_FromCJSON [⟨[115, 105, 107], [], false, 7⟩]
      = .dict [(.str [107], .int 7)] :=
  ⟨congrArg PyVal.dict (dictEntries_eq_map items), rfl⟩

/-- C2: at optional-leaf index 8 with bit 8 of bitmap word 0 set (word
value `0x100`), the claim demands the null sentinel, but the
materializer reads the single byte `bitmap[8/64] = bitmap[0] = 0`, masks
it with `1 << 8`, obtains 0, and materializes the stored i64 (42)
instead.  The second conjunct checks that bit `8 % 64` of bitmap word
`8 / 64` is indeed set. -/
theorem claim2_bitmap_high_bits_lost :
    createPyObjectFromMemory noItems mBitmapRow 8 (.option .i64) (some 0) 8
      = some (.int 42)
    ∧ Nat.testBit (readU64 mBitmapRow (8 * (8 / 64))) (8 % 64) = true :=
  ⟨rfl, by decide⟩

/-- C3: for the tuple schema `(option i64, str)` (one optional leaf, so
8 bitmap bytes, and two leaf paths, so 16 fixed bytes) the prober returns
132 = 16 + 8 + 100 + 8: it reads the varlen-total word at row offset
32 = 2·bitmap + fixed (the bitmap is counted twice — `serializationSize`
advances past it and `checkTupleCapacity` adds it again), where this row
stores 100.  The word at the claimed offset bitmap + fixed = 24 is 0, so
the claim's prescription would return 8 + 16 + 8 + 0 = 32 ≠ 132. -/
theorem claim3_size_prober_counts_bitmap_twice :
    serializationSize mTupleRow 0 1000 (.tuple [.option .i64, .str]) = 132
    ∧ readI64 mTupleRow (8 * numBitmapFields (.tuple [.option .i64, .str])
        + 8 * numLeaves (.tuple [.option .i64, .str])) = 0
    ∧ readI64 mTupleRow 32 = 100
    ∧ (132 : Int) ≠ 8 + 16 + 8 + 0 :=
  ⟨rfl, by decide, by decide, by decide⟩

/-- C4, counterexample: for a top-level variant the dispatcher does not
recognise (`nullValue` reaches the fallback branch: debug log, then
`Py_None`), the entry point returns TRUE while the produced top-level
value is the null sentinel — the claim demands false there. -/
theorem claim4_counterexample :
    (fromSerializedMemory noItems zeroMem 0 100 .nullValue).ret = true
    ∧ (fromSerializedMemory noItems zeroMem 0 100 .nullValue).obj = some PyVal.none :=
  ⟨rfl, rfl⟩

/-- C4 (amended): the entry point's boolean is `*obj != nullptr` — it
tracks pointer non-nullness, not the null sentinel; in particular an
unknown top-level variant materializes the null sentinel (a valid
pointer) and the entry point returns true. -/
theorem claim4_ret_tracks_pointer_not_sentinel (cj : CJSource) (m : Mem) (p : Nat)
    (capacity : Int) (T : PType) :
    (fromSerializedMemory cj m p capacity T).ret
      = (fromSerializedMemory cj m p capacity T).obj.isSome
    ∧ (fromSerializedMemory cj m p capacity .nullValue).ret = true
    ∧ (fromSerializedMemory cj m p capacity .nullValue).obj = some PyVal.none :=
  ⟨rfl, rfl, rfl⟩

/-- C5, counterexample: the row `["a", "bc"]` in the format the decoder
reads (count 2, slot-relative offsets 16 and 10, then the string bodies).
The produced second string is `"bc"` (bytes 98, 99), but decoding at one
fixed region base — the first offset slot, as the claim and its spec
sentence prescribe — lands inside the offset array and yields the bytes
0, 0 instead. -/
theorem claim5_counterexample :
    createPyObjectFromMemory noItems mListRow 0 (.list .str) Option.none 0
      = some (.list [.str [97], .str [98, 99]])
    ∧ stringListFromMemory_claim mListRow 0 = .list [.str [97], .str [0, 0]]
    ∧ ([98, 99] : List Nat) ≠ [0, 0] :=
  ⟨rfl, rfl, by decide⟩

/-- C5 (amended): each string element `i` of a string list is decoded
with the claim's length formulas, but at its OWN offset slot's address
plus its stored offset (`region + 8·(i+1) + offsets[i]`), not at one
fixed region base: the offsets are origined at the slot that holds them. -/
theorem claim5_amended_slot_relative_offsets (cj : CJSource) (m : Mem) (p : Nat) :
    createPyObjectFromMemory cj m p (.list .str) Option.none 0
      = some (.list ((List.range (readU64 m (p + readU64 m p % 2 ^ 32))).map
          (stringListElement m (p + readU64 m p % 2 ^ 32) (readU64 m p / 2 ^ 32)
            (readU64 m (p + readU64 m p % 2 ^ 32))))) := by
  calc
    createPyObjectFromMemory cj m p (.list .str) Option.none 0
        = (seqOption ((List.range (readU64 m (p + readU64 m p % 2 ^ 32))).map fun i =>
            some (stringListElement m (p + readU64 m p % 2 ^ 32) (readU64 m p / 2 ^ 32)
              (readU64 m (p + readU64 m p % 2 ^ 32)) i))).map PyVal.list := rfl
    _ = (some ((List.range (readU64 m (p + readU64 m p % 2 ^ 32))).map
            (stringListElement m (p + readU64 m p % 2 ^ 32) (readU64 m p / 2 ^ 32)
              (readU64 m (p + readU64 m p % 2 ^ 32))))).map PyVal.list := by
          rw [seqOption_map_some]
    _ = some (.list ((List.range (readU64 m (p + readU64 m p % 2 ^ 32))).map
            (stringListElement m (p + readU64 m p % 2 ^ 32) (readU64 m p / 2 ^ 32)
              (readU64 m (p + readU64 m p % 2 ^ 32))))) := rfl

/-- C6: a string leaf reads the packed 64-bit descriptor at its slot
(low 32 bits the offset relative to the slot, high 32 bits the length
including the NUL terminator) and decodes exactly the first length − 1
bytes at `ptr + offset`; a stored length of 1 yields the empty string. -/
theorem claim6_string_leaf_decode (cj : CJSource) (m : Mem) (p : Nat) :
    createPyObjectFromMemory cj m p .str Option.none 0
      = some (.str (readBytes m (p + readU64 m p % 2 ^ 32) (readU64 m p / 2 ^ 32 - 1)))
    ∧ (readU64 m p / 2 ^ 32 = 1 →
       createPyObjectFromMemory cj m p .str Option.none 0 = some (.str [])) := by
  constructor
  · rfl
  · intro h
    have h1 : createPyObjectFromMemory cj m p .str Option.none 0
        = some (.str (readBytes m (p + readU64 m p % 2 ^ 32) (readU64 m p / 2 ^ 32 - 1))) := rfl
    rw [h1, h]
    rfl

/-- Witness for C6 at a concrete row whose descriptor stores length 1:
the produced string is empty. -/
theorem claim6_witness :
    createPyObjectFromMemory noItems mEmptyStrRow 0 .str Option.none 0 = some (.str []) :=
  (claim6_string_leaf_decode noItems mEmptyStrRow 0).2 (by decide)

/-- C7: the size prober returns 0 for a single-valued type, and exactly
the bitmap size `8 * ceil(num_optional_leaves / 64)` for an optional
with single-valued inner type, with no fixed-region or varlen
contribution in either case. -/
theorem claim7_size_single_valued (m : Mem) (p : Nat) (capacity : Int) (T t : PType)
    (h : isSingleValued T = true ∨ (T = .option t ∧ isSingleValued t = true)) :
    serializationSize m p capacity T
      = if isSingleValued T then 0 else ((8 * numBitmapFields T : Nat) : Int) := by
  rcases h with h | ⟨rfl, ht⟩
  · simp [serializationSize, h]
  · have hopt : isSingleValued (.option t) = false := rfl
    have hnbf : numBitmapFields (.option t) = 1 := by
      simp [numBitmapFields, numOptionalFields, ceilToMultiple]
    simp [serializationSize, isOptionType, getReturnType, ht, hopt, hnbf,
      int64OfNat, toInt64]

/-- Witness for C7 at the empty dict (single-valued: size 0) and at
option-of-empty-list (one optional leaf: one bitmap word, size 8). -/
theorem claim7_witness :
    serializationSize zeroMem 0 0 .emptyDict = 0
    ∧ serializationSize zeroMem 0 0 (.option .emptyList) = 8 :=
  ⟨(claim7_size_single_valued zeroMem 0 0 .emptyDict .emptyDict (Or.inl rfl)).trans
      (by decide),
   (claim7_size_single_valued zeroMem 0 0 (.option .emptyList) .emptyList
      (Or.inr ⟨rfl, rfl⟩)).trans (by decide)⟩

/-- C8: a key with tag character `b` decodes the literal remainder
`"True"` to true and `"False"` to false; any other remainder, and any
key whose tag character is outside s/b/i/f (bytes 115/98/105/102),
takes the error branch (log + null sentinel) — and the dict decoder
still decodes the remaining entries. -/
theorem claim8_bool_keys_and_unknown_tags
    (c t : Nat) (rest vs : List Nat) (b : Bool) (d : Int) (items : List CJItem)
    (ht : t ≠ 115 ∧ t ≠ 98 ∧ t ≠ 105 ∧ t ≠ 102)
    (hr : rest ≠ strBytes "True" ∧ rest ≠ strBytes "False") :
    PyObj_FromCJSONKey (98 :: c :: strBytes "True") = (.bool true, false)
    ∧ PyObj_FromCJSONKey (98 :: c :: strBytes "False") = (.bool false, false)
    ∧ PyObj_FromCJSONKey (98 :: c :: rest) = (.none, true)
    ∧ PyObj_FromCJSONKey (t :: c :: rest) = (.none, true)
    ∧ PyDict_FromCJSON (⟨t :: c :: rest, vs, b, d⟩ :: items)
        = .dict ((PyVal.none, (PyObj_FromCJSONVal ⟨t :: c :: rest, vs, b, d⟩ c).1)
            :: dictEntries items) := by
  obtain ⟨ht1, ht2, ht3, ht4⟩ := ht
  obtain ⟨hr1, hr2⟩ := hr
  refine ⟨by simp [PyObj_FromCJSONKey], by simp [PyObj_FromCJSONKey]; decide,
    by simp [PyObj_FromCJSONKey, hr1, hr2],
    by simp [PyObj_FromCJSONKey, ht1, ht2, ht3, ht4], ?_⟩
  simp [PyDict_FromCJSON, dictEntries, PyObj_FromCJSONKey, ht1, ht2, ht3, ht4]

/-- Witness for C8: tag `b` with remainders `"True"`, `"False"` and
`"x"`; unknown tag `z` (122) with remainder `"x"`; and a two-entry dict
whose first key has the unknown tag — the second entry (key `"sik"`,
value 7) is still decoded. -/
theorem claim8_witness :
    PyObj_FromCJSONKey (98 :: 95 :: strBytes "True") = (.bool true, false)
    ∧ PyObj_FromCJSONKey (98 :: 95 :: strBytes "False") = (.bool false, false)
    ∧ PyObj_FromCJSONKey (98 :: 95 :: [120]) = (.none, true)
    ∧ PyObj_FromCJSONKey (122 :: 95 :: [120]) = (.none, true)
    ∧ PyDict_FromCJSON (⟨122 :: 95 :: [120], [], false, 0⟩
          :: [⟨[115, 105, 107], [], false, 7⟩])
        = .dict ((PyVal.none, (PyObj_FromCJSONVal ⟨122 :: 95 :: [120], [], false, 0⟩ 95).1)
            :: dictEntries [⟨[115, 105, 107], [], false, 7⟩]) :=
  claim8_bool_keys_and_unknown_tags 95 122 [120] [] false 0
    [⟨[115, 105, 107], [], false, 7⟩]
    ⟨by decide, by decide, by decide, by decide⟩ ⟨by decide, by decide⟩

/-- C9: a typed-dict value with tag `i` goes through the node's double
(`PyLong_FromDouble(obj->valuedouble)`), so the token 9007199254740993
(2^53 + 1) decodes to 9007199254740992: the nearest binary64 value the
parse produced, not the token's exact base-10 value. -/
theorem claim9_int_value_via_double :
    (PyObj_FromCJSONVal ⟨[105, 105, 107], [], false, nearestDouble 9007199254740993⟩ 105).1
      = .int 9007199254740992
    ∧ nearestDouble 9007199254740993 ≠ 9007199254740993 :=
  ⟨rfl, by decide⟩

/-- C10: the materialized top-level value does not depend on the
capacity argument — any two capacities produce the same object — and the
entry point materializes unconditionally (capacity feeds only the size
computation for the next-row pointer, and no capacity check guards the
materializer). -/
theorem claim10_capacity_independent_materialization (cj : CJSource) (m : Mem) (p : Nat)
    (T : PType) (c1 c2 : Int) :
    (fromSerializedMemory cj m p c1 T).obj = (fromSerializedMemory cj m p c2 T).obj
    ∧ (fromSerializedMemory cj m p c1 T).obj = createPyObjectFromMemory cj m p T Option.none 0 :=
  ⟨rfl, rfl⟩
